import Mathlib

/-!
Verification of the wschannel package: a shallow embedding of the Channel,
Dial and Listener code, with theorems checking the specification claims.

The websocket transport itself is external to the package; calls into it
(message writes, reads, close, upgrade, dial) are modelled by passing their
results as explicit parameters, so every package-level function becomes a
pure function of the transport's observed behaviour and the local state.
-/

namespace Wschannel

/-- Errors observed by the wschannel code.  `closeError` models the
websocket library's CloseError (returned when a close frame is received);
`errClosed` models net.ErrClosed; `badHandshake` models
websocket.ErrBadHandshake; `dialWrap e` models fmt.Errorf("dial: %w", e);
`dialText msg` models fmt.Errorf("dial: %s", msg); `other` stands for any
further transport or library error. -/
inductive Err where
  | closeError (code : Int) (text : String)
  | errClosed
  | badHandshake
  | listenerClosed
  | ctxCanceled
  | dialWrap (e : Err)
  | dialText (msg : String)
  | other (tag : String)
deriving DecidableEq, Repr

/-- filterErr from the gorilla revision, on a non-nil error: a
websocket CloseError becomes net.ErrClosed, everything else is returned
unchanged. -/
def filterErrE (e : Err) : Err :=
  match e with
  | Err.closeError _ _ => Err.errClosed
  | _ => e

/-- filterErr as written in the source, over a possibly-nil error
(the nil case arises on the Send path). -/
def filterErr (err : Option Err) : Option Err :=
  Option.map filterErrE err

/-- Channel.Send: the transport write result is passed through filterErr.
The parameter is the error (possibly nil) returned by
c.c.WriteMessage(websocket.BinaryMessage, data). -/
def channelSend (writeErr : Option Err) : Option Err :=
  filterErr writeErr

/-- Channel.Recv: on a transport read error the error is passed through
filterErr and no data is returned; otherwise the received bytes are
returned.  The parameter is the result of c.c.ReadMessage(). -/
def channelRecv (readResult : Except Err (List Nat)) : Except Err (List Nat) :=
  match readResult with
  | Except.error e => Except.error (filterErrE e)
  | Except.ok bits => Except.ok bits

/-- Spec-side classification, following the spec words: a transport error
that represents a connection closed by the peer, including a received close
frame.  In the transport model this is exactly the CloseError constructor,
which the websocket library returns when the connection was closed with a
status (a close frame arrived). -/
def specClosedByPeer (e : Err) : Bool :=
  match e with
  | Err.closeError _ _ => true
  | _ => false

/-- State of a gorilla-revision Channel: whether the done field is non-nil,
how many times the done signal has been fired, and how many times the
underlying transport Close has been invoked. -/
structure GChan where
  doneArmed : Bool
  doneFired : Nat
  transportClosed : Nat
deriving DecidableEq, Repr

/-- Events performed by Channel.Close, in execution order. -/
inductive CloseEvent where
  | sentCloseNotify (result : Option Err)
  | closedTransport (result : Option Err)
  | firedDone
deriving DecidableEq, Repr

/-- Result of a gorilla-revision Channel.Close call. -/
structure GCloseOut where
  ret : Option Err
  chan : GChan
  events : List CloseEvent
deriving DecidableEq, Repr

/-- Channel.Close of the gorilla revision: write the close message to the
peer (result `writeErr`), then close the underlying transport (result
`closeErr`) unconditionally; if the write failed return its error,
otherwise fire the done signal (when the field is non-nil) and return the
transport-close error.  The events list records the actions in order. -/
def gClose (writeErr closeErr : Option Err) (c : GChan) : GCloseOut :=
  let c1 : GChan := { c with transportClosed := c.transportClosed + 1 }
  match writeErr with
  | some e =>
      { ret := some e, chan := c1,
        events := [CloseEvent.sentCloseNotify (some e),
                   CloseEvent.closedTransport closeErr] }
  | none =>
      if c1.doneArmed then
        { ret := closeErr,
          chan := { c1 with doneFired := c1.doneFired + 1 },
          events := [CloseEvent.sentCloseNotify none,
                     CloseEvent.closedTransport closeErr,
                     CloseEvent.firedDone] }
      else
        { ret := closeErr, chan := c1,
          events := [CloseEvent.sentCloseNotify none,
                     CloseEvent.closedTransport closeErr] }

/-- New of the gorilla revision: wraps a connection with a nil done field. -/
def gNew : GChan :=
  { doneArmed := false, doneFired := 0, transportClosed := 0 }

/-- C1: Channel.Close first attempts the close notification, then closes the
underlying transport unconditionally (the transport-close count rises on
every call, whatever the notification result), and returns the
notification-send error when that step failed, otherwise the
transport-close error. -/
theorem close_notifies_then_closes_transport (writeErr closeErr : Option Err)
    (c : GChan) :
    (gClose writeErr closeErr c).events.take 2 =
      [CloseEvent.sentCloseNotify writeErr, CloseEvent.closedTransport closeErr] ∧
    (gClose writeErr closeErr c).chan.transportClosed = c.transportClosed + 1 ∧
    (gClose writeErr closeErr c).ret =
      (match writeErr with | some e => some e | none => closeErr) := by
  cases writeErr with
  | some e => exact ⟨rfl, rfl, rfl⟩
  | none =>
      unfold gClose
      by_cases h : c.doneArmed <;> simp [h]

/-- C3: every transport error observed by Send or Recv is routed through the
classification: an error representing a connection closed by the peer (a
received close frame, modelled by CloseError) is mapped to the one
well-known channel-closed value net.ErrClosed, and every other transport
error is propagated to the caller unchanged. -/
theorem send_recv_classify_closed (e : Err) :
    (specClosedByPeer e = true → filterErrE e = Err.errClosed) ∧
    (specClosedByPeer e = false → filterErrE e = e) ∧
    channelSend (some e) = some (filterErrE e) ∧
    channelSend none = none ∧
    channelRecv (Except.error e) = Except.error (filterErrE e) ∧
    (∀ bits : List Nat, channelRecv (Except.ok bits) = Except.ok bits) := by
  refine ⟨?_, ?_, rfl, rfl, rfl, fun _ => rfl⟩ <;>
    cases e <;> simp [specClosedByPeer, filterErrE]

/-- Witness for the classification theorem at concrete errors: a received
close frame maps to the channel-closed value; an unrelated transport error
passes through Recv unchanged. -/
theorem send_recv_classify_closed_witness :
    (specClosedByPeer (Err.closeError 1000 "bye") = true →
      filterErrE (Err.closeError 1000 "bye") = Err.errClosed) ∧
    (specClosedByPeer (Err.other "io timeout") = false →
      filterErrE (Err.other "io timeout") = Err.other "io timeout") ∧
    channelRecv (Except.error (Err.other "io timeout")) =
      Except.error (Err.other "io timeout") := by
  refine ⟨(send_recv_classify_closed (Err.closeError 1000 "bye")).1, ?_, ?_⟩
  · exact (send_recv_classify_closed (Err.other "io timeout")).2.1
  · exact (send_recv_classify_closed (Err.other "io timeout")).2.2.2.2.1

/-- State of an nhooyr-revision Channel: whether the done field is non-nil
(`doneArmed`), how many times the done signal has been fired, how many
times a transport close has been initiated, and whether a forbidden
operation (closing an already-fired signal) has occurred. -/
structure NChan where
  doneArmed : Bool
  doneFired : Nat
  transportClosed : Nat
  panicked : Bool
deriving DecidableEq, Repr

/-- New of the nhooyr revision: wraps a connection with a freshly made,
unfired done signal. -/
def nNew : NChan :=
  { doneArmed := true, doneFired := 0, transportClosed := 0, panicked := false }

/-- Channel.Close of the nhooyr revision: when the done field is non-nil,
fire the done signal, start the transport close handshake in the
background, and set the done field to nil; otherwise do nothing.  Always
returns a nil error.  Firing a signal that has already fired would abort
the program; the model records that in `panicked`. -/
def nClose (c : NChan) : Option Err × NChan :=
  if c.doneArmed then
    (none,
     { doneArmed := false,
       doneFired := c.doneFired + 1,
       transportClosed := c.transportClosed + 1,
       panicked := c.panicked || decide (0 < c.doneFired) })
  else
    (none, c)

/-- Channel.Done of the nhooyr revision: returns the current value of the
done field; `none` models a nil signal. -/
def nDone (c : NChan) : Option Unit :=
  if c.doneArmed then some () else none

/-- Iterated Close: `closeIter n c` is the channel state after n
successive Close calls. -/
def closeIter : Nat → NChan → NChan
  | 0, c => c
  | n + 1, c => closeIter n (nClose c).2

/-- DialContext of the nhooyr revision: on a dial error it is returned to
the caller and no Channel exists; on success the connection is wrapped
with New. -/
def dialContextN (dialErr : Option Err) : Except Err NChan :=
  match dialErr with
  | some e => Except.error e
  | none => Except.ok nNew

theorem closeIter_of_unarmed (n : Nat) (c : NChan) (h : c.doneArmed = false) :
    closeIter n c = c := by
  induction n with
  | zero => rfl
  | succ n ih => simp [closeIter, nClose, h, ih]

theorem closeIter_succ_nNew (n : Nat) :
    closeIter (n + 1) nNew =
      { doneArmed := false, doneFired := 1, transportClosed := 1,
        panicked := false } := by
  have h1 : (nClose nNew).2 =
      { doneArmed := false, doneFired := 1, transportClosed := 1,
        panicked := false } := by
    simp [nClose, nNew]
  simp [closeIter, h1, closeIter_of_unarmed]

/-- C2: over the whole lifetime of a freshly created Channel, any positive
number of Close calls fires the done signal exactly once and initiates the
transport close exactly once, no call aborts, and a second Close after the
first returns a nil error and leaves the state untouched. -/
theorem close_idempotent_done_once (n : Nat) :
    (closeIter (n + 1) nNew).doneFired = 1 ∧
    (closeIter (n + 1) nNew).transportClosed = 1 ∧
    (closeIter (n + 1) nNew).panicked = false ∧
    nClose (closeIter 1 nNew) = (none, closeIter 1 nNew) := by
  have h := closeIter_succ_nNew n
  have h0 := closeIter_succ_nNew 0
  refine ⟨by rw [h], by rw [h], by rw [h], ?_⟩
  rw [h0]
  simp [nClose]

/-- C10: in the revision exposing a Done accessor, a Channel created by New
or by a successful DialContext has a non-nil done signal before the first
Close, but the first Close sets the done field to nil, so after any
positive number of Close calls the Done accessor returns a nil signal. -/
theorem done_nil_after_close (de : Option Err) (c : NChan) (n : Nat)
    (h : dialContextN de = Except.ok c) :
    nDone nNew = some () ∧
    nDone c = some () ∧
    nDone (closeIter (n + 1) nNew) = none ∧
    nDone (closeIter (n + 1) c) = none := by
  have hc : c = nNew := by
    cases de with
    | none =>
        simpa [dialContextN] using h.symm
    | some e => simp [dialContextN] at h
  subst hc
  refine ⟨rfl, rfl, ?_, ?_⟩ <;> rw [closeIter_succ_nNew] <;> rfl

/-- Witness for the Done accessor theorem: a successful dial with no
transport error yields a fresh channel; after one Close its Done signal is
nil. -/
theorem done_nil_after_close_witness :
    nDone nNew = some () ∧
    nDone nNew = some () ∧
    nDone (closeIter 1 nNew) = none ∧
    nDone (closeIter 1 nNew) = none :=
  done_nil_after_close none nNew 0 rfl

/-- ListenOptions: only MaxPending enters the queueing behaviour; the
check hook, extra headers and upgrader are modelled as parameters of the
operations that consult them. -/
structure ListenOptions where
  MaxPending : Int
deriving DecidableEq, Repr

/-- ListenOptions.maxPending: the default limit 1 applies when the options
are nil or MaxPending is not positive. -/
def maxPending (o : Option ListenOptions) : Int :=
  match o with
  | none => 1
  | some o => if o.MaxPending ≤ 0 then 1 else o.MaxPending

/-- Listener state: the buffered channel inc is modelled by its capacity
and its current FIFO contents, together with the closed flag. -/
structure Listener where
  cap : Nat
  queue : List NChan
  closed : Bool
deriving DecidableEq, Repr

/-- NewListener: an open listener with an empty queue whose capacity is
maxPending of the options. -/
def newListener (o : Option ListenOptions) : Listener :=
  { cap := (maxPending o).toNat, queue := [], closed := false }

/-- HTTP status codes used by the handler. -/
def statusInternalServerError : Nat := 500

def statusServiceUnavailable : Nat := 503

/-- Result of one ServeHTTP invocation of the later listener revision:
the error response written (status and message), if any; whether the
transport upgrade was attempted; the Channel enqueued, if any; and the
listener state afterwards.  When a channel was enqueued the invocation
then blocks on its done signal, which is not part of this per-step
result. -/
structure ServeResult where
  response : Option (Nat × String)
  upgraded : Bool
  enq : Option NChan
  lst : Listener
deriving DecidableEq, Repr

/-- ServeHTTP of the later listener revision.  `checkCode` and `checkErr`
are the values returned by the admission hook (the default hook returns 0
and nil); `upgradeOk` tells whether the transport upgrade would succeed.
Order of the source: hook first; then, under the mutex, the closed check,
the capacity check, the upgrade, and the enqueue of a freshly wrapped
Channel. -/
def serveHTTP (checkCode : Int) (checkErr : Option String) (upgradeOk : Bool)
    (lst : Listener) : ServeResult :=
  match checkErr with
  | some emsg =>
      { response := some ((if checkCode ≤ 0 then statusInternalServerError
                           else checkCode.toNat), emsg),
        upgraded := false, enq := none, lst := lst }
  | none =>
      if lst.closed then
        { response := some (statusInternalServerError, "listener is closed"),
          upgraded := false, enq := none, lst := lst }
      else if lst.queue.length = lst.cap then
        { response := some (statusServiceUnavailable, "connection queue is full"),
          upgraded := false, enq := none, lst := lst }
      else if upgradeOk then
        { response := none, upgraded := true, enq := some nNew,
          lst := { lst with queue := lst.queue ++ [nNew] } }
      else
        { response := none, upgraded := true, enq := none, lst := lst }

/-- cerr collection of Listener.Close: the first non-nil error among the
per-channel Close results. -/
def firstErr : List (Option Err) → Option Err
  | [] => none
  | some e :: _ => some e
  | none :: rest => firstErr rest

/-- Result of Listener.Close: the returned error, the listener state
afterwards, and the states of the drained channels after each was
closed. -/
structure LCloseOut where
  err : Option Err
  lst : Listener
  drained : List NChan
deriving DecidableEq, Repr

/-- Listener.Close of the later revision: a second call returns
ErrListenerClosed and changes nothing; the first call closes inc, drains
every queued Channel, closes each one (collecting the first error), marks
the listener closed, and returns the collected error. -/
def listenerClose (lst : Listener) : LCloseOut :=
  if lst.closed then
    { err := some Err.listenerClosed, lst := lst, drained := [] }
  else
    { err := firstErr (lst.queue.map (fun c => (nClose c).1)),
      lst := { lst with queue := [], closed := true },
      drained := lst.queue.map (fun c => (nClose c).2) }

/-- C7: a configured admission hook that rejects an attempt is honoured
strictly before any transport upgrade: the response carries exactly the
hook's status (500 substituted when the status is not positive), no
upgrade is attempted, no Channel is created or enqueued, and the listener
state is untouched. -/
theorem hook_rejection_before_upgrade (checkCode : Int) (emsg : String)
    (upgradeOk : Bool) (lst : Listener) :
    (serveHTTP checkCode (some emsg) upgradeOk lst).upgraded = false ∧
    (serveHTTP checkCode (some emsg) upgradeOk lst).enq = none ∧
    (serveHTTP checkCode (some emsg) upgradeOk lst).lst = lst ∧
    (serveHTTP checkCode (some emsg) upgradeOk lst).response =
      some ((if 0 < checkCode then checkCode.toNat
             else statusInternalServerError), emsg) := by
  refine ⟨rfl, rfl, rfl, ?_⟩
  by_cases h : checkCode ≤ 0
  · simp [serveHTTP, h, not_lt.mpr h]
  · simp [serveHTTP, h, lt_of_not_le h]

/-- C4: the enqueue step never blocks: when the listener is closed, or the
queue already holds capacity-many unconsumed Channels, the attempt is
rejected immediately with the listener-closed (500) or service-unavailable
(503) response and nothing is enqueued; the queue never exceeds its
capacity; and the capacity is MaxPending when positive, with default 1. -/
theorem enqueue_never_blocks (upgradeOk : Bool) (lst : Listener)
    (o : Option ListenOptions) (m : Int) :
    (lst.closed = true →
      (serveHTTP 0 none upgradeOk lst).enq = none ∧
      (serveHTTP 0 none upgradeOk lst).lst = lst ∧
      (serveHTTP 0 none upgradeOk lst).response =
        some (statusInternalServerError, "listener is closed")) ∧
    (lst.closed = false → lst.queue.length = lst.cap →
      (serveHTTP 0 none upgradeOk lst).enq = none ∧
      (serveHTTP 0 none upgradeOk lst).lst = lst ∧
      (serveHTTP 0 none upgradeOk lst).response =
        some (statusServiceUnavailable, "connection queue is full")) ∧
    (lst.queue.length ≤ lst.cap →
      (serveHTTP 0 none upgradeOk lst).lst.queue.length ≤ lst.cap) ∧
    maxPending none = 1 ∧
    (0 < m → maxPending (some { MaxPending := m }) = m) ∧
    (m ≤ 0 → maxPending (some { MaxPending := m }) = 1) ∧
    (newListener o).cap = (maxPending o).toNat := by
  refine ⟨?_, ?_, ?_, rfl, ?_, ?_, rfl⟩
  · intro h
    simp [serveHTTP, h]
  · intro h hfull
    simp [serveHTTP, h, hfull]
  · intro hle
    by_cases h : lst.closed
    · simpa [serveHTTP, h] using hle
    · by_cases hfull : lst.queue.length = lst.cap
      · simp [serveHTTP, h, hfull]
      · by_cases hup : upgradeOk
        · simp [serveHTTP, h, hfull, hup]
          omega
        · simp [serveHTTP, h, hfull, hup, hle]
  · intro hm
    simp [maxPending, not_le.mpr hm]
  · intro hm
    simp [maxPending, hm]

/-- Witness for the backpressure theorem: a closed listener rejects with
the listener-closed response, a full open listener rejects with the
service-unavailable response, and the capacity defaults apply. -/
theorem enqueue_never_blocks_witness :
    ((Listener.mk 1 [] true).closed = true →
      (serveHTTP 0 none true (Listener.mk 1 [] true)).enq = none ∧
      (serveHTTP 0 none true (Listener.mk 1 [] true)).lst = Listener.mk 1 [] true ∧
      (serveHTTP 0 none true (Listener.mk 1 [] true)).response =
        some (statusInternalServerError, "listener is closed")) ∧
    ((Listener.mk 1 [nNew] false).closed = false →
      (Listener.mk 1 [nNew] false).queue.length = (Listener.mk 1 [nNew] false).cap →
      (serveHTTP 0 none true (Listener.mk 1 [nNew] false)).enq = none ∧
      (serveHTTP 0 none true (Listener.mk 1 [nNew] false)).lst =
        Listener.mk 1 [nNew] false ∧
      (serveHTTP 0 none true (Listener.mk 1 [nNew] false)).response =
        some (statusServiceUnavailable, "connection queue is full")) ∧
    (0 < (3 : Int) → maxPending (some { MaxPending := 3 }) = 3) ∧
    ((-2 : Int) ≤ 0 → maxPending (some { MaxPending := -2 }) = 1) := by
  refine ⟨?_, ?_, ?_, ?_⟩
  · exact (enqueue_never_blocks true (Listener.mk 1 [] true) none 3).1
  · exact (enqueue_never_blocks true (Listener.mk 1 [nNew] false) none 3).2.1
  · exact (enqueue_never_blocks true (Listener.mk 1 [] true) none 3).2.2.2.2.1
  · exact (enqueue_never_blocks true (Listener.mk 1 [] true) none (-2)).2.2.2.2.2.1

/-- C5: the first Close of an open listener marks it closed, empties the
queue, closes every Channel that was still sitting in it (each drained
channel, having been enqueued fresh, has its done signal fired and its
transport close initiated exactly once), and returns a nil error; any
subsequent Close returns ErrListenerClosed and changes nothing. -/
theorem listener_close_once (lst : Listener) (h : lst.closed = false) :
    (listenerClose lst).lst.closed = true ∧
    (listenerClose lst).lst.queue = [] ∧
    (listenerClose lst).err = none ∧
    (listenerClose lst).drained = lst.queue.map (fun c => (nClose c).2) ∧
    ((∀ c ∈ lst.queue, c = nNew) →
      ∀ d ∈ (listenerClose lst).drained,
        d.doneArmed = false ∧ d.doneFired = 1 ∧ d.transportClosed = 1) ∧
    listenerClose (listenerClose lst).lst =
      { err := some Err.listenerClosed, lst := (listenerClose lst).lst,
        drained := [] } := by
  have herr : firstErr (lst.queue.map (fun c => (nClose c).1)) = none := by
    induction lst.queue with
    | nil => rfl
    | cons c rest ih =>
        have h1 : (nClose c).1 = none := by
          by_cases hc : c.doneArmed <;> simp [nClose, hc]
        simp [firstErr, h1, ih]
  refine ⟨by simp [listenerClose, h], by simp [listenerClose, h],
          by simp [listenerClose, h, herr], by simp [listenerClose, h], ?_, ?_⟩
  · intro hq d hd
    simp [listenerClose, h] at hd
    obtain ⟨c, hc, hcd⟩ := hd
    have : c = nNew := hq c hc
    subst this
    subst hcd
    simp [nClose, nNew]
  · simp [listenerClose, h]

/-- Witness for the listener Close theorem: closing an open listener with
one fresh queued channel closes that channel, empties the queue, and a
second Close reports the listener already closed. -/
theorem listener_close_once_witness :
    (listenerClose (Listener.mk 1 [nNew] false)).lst.closed = true ∧
    (listenerClose (Listener.mk 1 [nNew] false)).lst.queue = [] ∧
    (listenerClose (Listener.mk 1 [nNew] false)).err = none ∧
    (listenerClose (Listener.mk 1 [nNew] false)).drained =
      (Listener.mk 1 [nNew] false).queue.map (fun c => (nClose c).2) ∧
    ((∀ c ∈ (Listener.mk 1 [nNew] false).queue, c = nNew) →
      ∀ d ∈ (listenerClose (Listener.mk 1 [nNew] false)).drained,
        d.doneArmed = false ∧ d.doneFired = 1 ∧ d.transportClosed = 1) ∧
    listenerClose (listenerClose (Listener.mk 1 [nNew] false)).lst =
      { err := some Err.listenerClosed,
        lst := (listenerClose (Listener.mk 1 [nNew] false)).lst,
        drained := [] } :=
  listener_close_once (Listener.mk 1 [nNew] false) rfl

/-- Outcome of one Accept call. -/
inductive AcceptOutcome where
  | chan (c : NChan)
  | ctxError
  | lstClosed
deriving DecidableEq, Repr

/-- The select statement of Listener.Accept, as a step relation.  The
Boolean argument tells whether the cancellation signal (ctx.Done) has
fired.  The ctx case is ready exactly when the signal has fired and
returns ctx.Err.  The receive case is ready when the queue holds a
channel (which is then delivered in FIFO order) or when inc has been
closed by Listener.Close with the queue empty (receive reports not-ok and
Accept returns ErrListenerClosed).  When no case is ready the select — and
hence Accept — blocks, so no step exists. -/
inductive AcceptStep : Bool → Listener → AcceptOutcome × Listener → Prop where
  | ctxDone : ∀ lst, AcceptStep true lst (AcceptOutcome.ctxError, lst)
  | recvChan : ∀ d lst c rest, lst.queue = c :: rest →
      AcceptStep d lst (AcceptOutcome.chan c, { lst with queue := rest })
  | recvClosed : ∀ d lst, lst.queue = [] → lst.closed = true →
      AcceptStep d lst (AcceptOutcome.lstClosed, lst)

/-- C6: Accept returns the first queued Channel when one is available (the
only possible outcome while the cancellation signal has not fired); an
already-fired cancellation signal against an empty queue of an open
listener makes Accept return the cancellation error — an outcome distinct
from the listener-closed error — without blocking, it being the only
possible outcome; and on a closed listener with an empty queue Accept
returns the listener-closed error. -/
theorem accept_cases :
    (∀ (lst : Listener) (c : NChan) (rest : List NChan),
      lst.queue = c :: rest →
        AcceptStep false lst (AcceptOutcome.chan c, { lst with queue := rest }) ∧
        ∀ out, AcceptStep false lst out →
          out = (AcceptOutcome.chan c, { lst with queue := rest })) ∧
    (∀ lst : Listener, lst.queue = [] → lst.closed = false →
        AcceptStep true lst (AcceptOutcome.ctxError, lst) ∧
        (∀ out, AcceptStep true lst out → out = (AcceptOutcome.ctxError, lst)) ∧
        AcceptOutcome.ctxError ≠ AcceptOutcome.lstClosed) ∧
    (∀ lst : Listener, lst.queue = [] → lst.closed = true →
        AcceptStep false lst (AcceptOutcome.lstClosed, lst) ∧
        ∀ out, AcceptStep false lst out →
          out = (AcceptOutcome.lstClosed, lst)) := by
  refine ⟨?_, ?_, ?_⟩
  · intro lst c rest hq
    refine ⟨AcceptStep.recvChan false lst c rest hq, ?_⟩
    intro out h
    cases h with
    | recvChan d lst c2 rest2 hq2 =>
        rw [hq] at hq2
        cases hq2
        rfl
    | recvClosed d lst hq2 hc => simp [hq] at hq2
  · intro lst hq hc
    refine ⟨AcceptStep.ctxDone lst, ?_, by simp⟩
    intro out h
    cases h with
    | ctxDone lst => rfl
    | recvChan d lst c2 rest2 hq2 => simp [hq] at hq2
    | recvClosed d lst hq2 hc2 => rw [hc] at hc2; cases hc2
  · intro lst hq hc
    refine ⟨AcceptStep.recvClosed false lst hq hc, ?_⟩
    intro out h
    cases h with
    | recvChan d lst c2 rest2 hq2 => simp [hq] at hq2
    | recvClosed d lst hq2 hc2 => rfl

/-- Witness for the Accept theorem at concrete listeners: a queued channel
is delivered, an expired signal on an empty open listener yields the
cancellation outcome, and a closed empty listener yields the
listener-closed outcome. -/
theorem accept_cases_witness :
    AcceptStep false (Listener.mk 1 [nNew] false)
      (AcceptOutcome.chan nNew, Listener.mk 1 [] false) ∧
    AcceptStep true (Listener.mk 1 [] false)
      (AcceptOutcome.ctxError, Listener.mk 1 [] false) ∧
    AcceptStep false (Listener.mk 1 [] true)
      (AcceptOutcome.lstClosed, Listener.mk 1 [] true) := by
  refine ⟨(accept_cases.1 (Listener.mk 1 [nNew] false) nNew [] rfl).1,
          (accept_cases.2.1 (Listener.mk 1 [] false) rfl rfl).1,
          (accept_cases.2.2 (Listener.mk 1 [] true) rfl rfl).1⟩

/-- Number of unfinished invocations in a ledger of per-invocation
finished flags. -/
def unfinished : List Bool → Nat
  | [] => 0
  | b :: t => (if b then 0 else 1) + unfinished t

/-- Global state of the WaitGroup-based listener revision together with
its in-flight per-attempt handler invocations.  `invs` has one entry per
invocation admitted by Listener.add, true once the invocation has finished
(its deferred wg.Done has run); `wg` is the WaitGroup counter; `queue`
and `accepted` hold invocation indices whose Channel is still queued,
respectively has been handed out by Accept; `fired` holds the indices
whose done signal has fired; `closeReturned` records that Listener.Close
has returned. -/
structure Sys where
  invs : List Bool
  wg : Nat
  queue : List Nat
  accepted : List Nat
  fired : List Nat
  closed : Bool
  closeReturned : Bool
deriving DecidableEq, Repr

/-- Interleaved steps of the WaitGroup-based listener revision.
`add`: an open listener admits an attempt, wg.Add(1) runs and the
invocation's Channel is enqueued.  `accept`: a consumer receives the
first queued Channel.  `consumerClose`: the consumer closes an accepted
Channel, firing its done signal.  `finish`: an invocation whose done
signal has fired returns, running its deferred wg.Done.  `closeStart`:
Listener.Close begins — admissions stop and every still-queued Channel is
drained and closed, firing its done signal.  `closeReturn`: wg.Wait
returns only once the counter is zero, and Listener.Close returns. -/
inductive SysStep : Sys → Sys → Prop where
  | add : ∀ s, s.closed = false →
      SysStep s { s with invs := s.invs ++ [false], wg := s.wg + 1,
                         queue := s.queue ++ [s.invs.length] }
  | accept : ∀ s i rest, s.queue = i :: rest →
      SysStep s { s with queue := rest, accepted := s.accepted ++ [i] }
  | consumerClose : ∀ s i, i ∈ s.accepted →
      SysStep s { s with fired := i :: s.fired }
  | finish : ∀ s i, i ∈ s.fired → s.invs[i]? = some false →
      SysStep s { s with invs := s.invs.set i true, wg := s.wg - 1 }
  | closeStart : ∀ s, s.closed = false →
      SysStep s { s with closed := true, fired := s.queue ++ s.fired,
                         queue := [] }
  | closeReturn : ∀ s, s.closed = true → s.wg = 0 →
      SysStep s { s with closeReturned := true }

/-- The initial state: a fresh listener with no invocations. -/
def initSys : Sys :=
  { invs := [], wg := 0, queue := [], accepted := [], fired := [],
    closed := false, closeReturned := false }

/-- States reachable from the fresh listener. -/
inductive Reachable : Sys → Prop where
  | init : Reachable initSys
  | step : ∀ s t, Reachable s → SysStep s t → Reachable t

/-- The inductive invariant: the WaitGroup counter equals the number of
unfinished invocations, and once Close has returned the listener is
closed with a zero counter. -/
def SysInv (s : Sys) : Prop :=
  s.wg = unfinished s.invs ∧
  (s.closeReturned = true → s.closed = true ∧ s.wg = 0)

theorem unfinished_append_false (l : List Bool) :
    unfinished (l ++ [false]) = unfinished l + 1 := by
  induction l with
  | nil => rfl
  | cons b t ih => simp [unfinished, ih]; omega

theorem unfinished_set_true (l : List Bool) (i : Nat)
    (h : l[i]? = some false) :
    unfinished (l.set i true) + 1 = unfinished l := by
  induction l generalizing i with
  | nil => simp at h
  | cons b t ih =>
      cases i with
      | zero =>
          simp at h
          simp [h, unfinished]
          omega
      | succ i =>
          simp at h
          have := ih i h
          simp [unfinished]
          omega

theorem sysInv_step (s t : Sys) (hs : SysInv s) (hstep : SysStep s t) :
    SysInv t := by
  obtain ⟨hwg, hret⟩ := hs
  cases hstep with
  | add hopen =>
      refine ⟨by simp [unfinished_append_false, hwg], ?_⟩
      intro hr
      simp at hr
      have := (hret hr).1
      rw [hopen] at this
      cases this
  | accept i rest hq => exact ⟨hwg, hret⟩
  | consumerClose i hi => exact ⟨hwg, hret⟩
  | finish i hi hfalse =>
      have hcount := unfinished_set_true s.invs i hfalse
      refine ⟨by simp; omega, ?_⟩
      intro hr
      simp at hr
      have := (hret hr).2
      omega
  | closeStart hopen =>
      refine ⟨hwg, ?_⟩
      intro hr
      simp at hr
      exact ⟨rfl, (hret hr).2⟩
  | closeReturn hclosed hzero =>
      exact ⟨hwg, fun _ => ⟨hclosed, hzero⟩⟩

theorem reachable_sysInv (s : Sys) (h : Reachable s) : SysInv s := by
  induction h with
  | init => exact ⟨rfl, by intro h; cases h⟩
  | step s t _ hstep ih => exact sysInv_step s t ih hstep

/-- C8: in every reachable state in which Listener.Close has returned,
every per-attempt handler invocation ever admitted has finished — the
wg.Wait in Close only returns once the WaitGroup counter, which tracks the
unfinished invocations, reaches zero. -/
theorem close_waits_for_invocations (s : Sys) (h : Reachable s)
    (hret : s.closeReturned = true) :
    unfinished s.invs = 0 := by
  obtain ⟨hwg, hr⟩ := reachable_sysInv s h
  have := (hr hret).2
  omega

/-- Witness for the shutdown theorem: a run that admits one attempt,
closes the listener (draining and closing the queued Channel), lets the
invocation finish, and completes Close, ends with no unfinished
invocation. -/
theorem close_waits_for_invocations_witness :
    unfinished
      ({ invs := [true], wg := 0, queue := [], accepted := [],
         fired := [0], closed := true, closeReturned := true } : Sys).invs = 0 := by
  have h1 : SysStep initSys
      { invs := [false], wg := 1, queue := [0], accepted := [], fired := [],
        closed := false, closeReturned := false } := by
    have := SysStep.add initSys rfl
    simpa [initSys] using this
  have h2 : SysStep
      { invs := [false], wg := 1, queue := [0], accepted := [], fired := [],
        closed := false, closeReturned := false }
      { invs := [false], wg := 1, queue := [], accepted := [], fired := [0],
        closed := true, closeReturned := false } := by
    have := SysStep.closeStart
      { invs := [false], wg := 1, queue := [0], accepted := [], fired := [],
        closed := false, closeReturned := false } rfl
    simpa using this
  have h3 : SysStep
      { invs := [false], wg := 1, queue := [], accepted := [], fired := [0],
        closed := true, closeReturned := false }
      { invs := [true], wg := 0, queue := [], accepted := [], fired := [0],
        closed := true, closeReturned := false } := by
    have := SysStep.finish
      { invs := [false], wg := 1, queue := [], accepted := [], fired := [0],
        closed := true, closeReturned := false } 0 (by simp) (by simp)
    simpa using this
  have h4 : SysStep
      { invs := [true], wg := 0, queue := [], accepted := [], fired := [0],
        closed := true, closeReturned := false }
      { invs := [true], wg := 0, queue := [], accepted := [], fired := [0],
        closed := true, closeReturned := true } := by
    have := SysStep.closeReturn
      { invs := [true], wg := 0, queue := [], accepted := [], fired := [0],
        closed := true, closeReturned := false } rfl rfl
    simpa using this
  exact close_waits_for_invocations _
    (Reachable.step _ _
      (Reachable.step _ _
        (Reachable.step _ _ (Reachable.step _ _ Reachable.init h1) h2) h3) h4)
    rfl

/-- Whitespace as trimmed by strings.TrimSpace (ASCII cases). -/
def isSpaceChar (c : Char) : Bool :=
  c = ' ' || c = '\t' || c = '\n' || c = '\r'

/-- strings.TrimSpace over a character list. -/
def trimSpaceL (s : List Char) : List Char :=
  ((s.dropWhile isSpaceChar).reverse.dropWhile isSpaceChar).reverse

/-- Rendered text of an error, for reasoning about what an error message
contains.  Only the structure of the dial errors matters: wrapping and
formatting both prepend the dial context. -/
def errText : Err → List Char
  | Err.closeError _ text => String.data ("websocket: close " ++ text)
  | Err.errClosed => String.data "use of closed network connection"
  | Err.badHandshake => String.data "websocket: bad handshake"
  | Err.listenerClosed => String.data "listener is closed"
  | Err.ctxCanceled => String.data "context canceled"
  | Err.dialWrap e => String.data "dial: " ++ errText e
  | Err.dialText msg => String.data "dial: " ++ String.data msg
  | Err.other tag => String.data tag

/-- One character list occurs inside another. -/
def mentions (hay sub : List Char) : Prop :=
  ∃ p q, hay = p ++ sub ++ q

/-- Dial of the gorilla revision.  `dialErr` is the error returned by the
websocket dialer, `bodyReadOk` and `body` the result of reading the
handshake response body.  A non-bad-handshake error is wrapped with dial
context; a bad handshake whose response body was read and is non-empty
surfaces the trimmed body text; any other bad handshake is returned
as-is. -/
def dialG (dialErr : Option Err) (bodyReadOk : Bool) (body : String) :
    Except Err Unit :=
  match dialErr with
  | none => Except.ok ()
  | some e =>
      if e ≠ Err.badHandshake then Except.error (Err.dialWrap e)
      else if bodyReadOk && !body.data.isEmpty then
        Except.error (Err.dialText (String.mk (trimSpaceL body.data)))
      else Except.error e

/-- An error of a wrapped dial form: either the dial-context wrapper or
the dial-formatted rejection text. -/
def isDialWrapped : Err → Bool
  | Err.dialWrap _ => true
  | Err.dialText _ => true
  | _ => false

/-- Classification recoverable from a dial failure: true when the failure
was a handshake rejection by the endpoint, false when the endpoint could
not be reached (any other transport error). -/
def dialFailureWasRejection : Err → Bool
  | Err.badHandshake => true
  | Err.dialText _ => true
  | _ => false

/-- C9 counterexample: a failed handshake whose rejection body is empty is
returned as the bare bad-handshake error, which is not wrapped with any
dial context — refuting the claim that every dial failure other than a
structured rejection with a non-empty body is wrapped. -/
theorem dial_empty_body_not_wrapped :
    dialG (some Err.badHandshake) true "" = Except.error Err.badHandshake ∧
    isDialWrapped Err.badHandshake = false := by
  exact ⟨rfl, rfl⟩

/-- C9 amended: when the handshake fails with a structured rejection whose
body is non-empty, the returned error contains the (whitespace-trimmed)
rejection body text; every dial failure other than a bad handshake is
wrapped with dial context; a bad handshake without usable body text is
returned as the distinguished bad-handshake error itself, unwrapped; and
in every failure the returned error still distinguishes a rejected
handshake from an unreachable endpoint. -/
theorem dial_failure_classified (e : Err) (bodyReadOk : Bool) (body : String) :
    (e = Err.badHandshake → bodyReadOk = true → body.data ≠ [] →
      dialG (some e) bodyReadOk body =
        Except.error (Err.dialText (String.mk (trimSpaceL body.data))) ∧
      mentions (errText (Err.dialText (String.mk (trimSpaceL body.data))))
        (trimSpaceL body.data)) ∧
    (e ≠ Err.badHandshake →
      dialG (some e) bodyReadOk body = Except.error (Err.dialWrap e) ∧
      mentions (errText (Err.dialWrap e)) (errText e)) ∧
    (e = Err.badHandshake → (bodyReadOk = true → body.data = []) →
      dialG (some e) bodyReadOk body = Except.error e) ∧
    (∀ r, dialG (some e) bodyReadOk body = Except.error r →
      dialFailureWasRejection r = decide (e = Err.badHandshake)) := by
  refine ⟨?_, ?_, ?_, ?_⟩
  · intro he hok hne
    subst he
    refine ⟨by simp [dialG, hok, hne], ?_⟩
    exact ⟨String.data "dial: ", [], by simp [errText]⟩
  · intro hne
    refine ⟨by simp [dialG, hne], ?_⟩
    exact ⟨String.data "dial: ", [], by simp [errText]⟩
  · intro he hempty
    subst he
    cases bodyReadOk with
    | false => simp [dialG]
    | true => simp [dialG, hempty rfl]
  · intro r hr
    by_cases he : e = Err.badHandshake
    · subst he
      by_cases hb : bodyReadOk = true ∧ body.data ≠ []
      · simp [dialG, hb.1, hb.2] at hr
        simp [← hr, dialFailureWasRejection]
      · have : (bodyReadOk && !body.data.isEmpty) = false := by
          cases bodyReadOk with
          | false => rfl
          | true =>
              simp at hb ⊢
              simpa using hb
        simp [dialG, this] at hr
        simp [← hr, dialFailureWasRejection]
    · simp [dialG, he] at hr
      have : dialFailureWasRejection (Err.dialWrap e) = false := rfl
      simp [← hr, this, he]

/-- Witness for the dial classification theorem: a structured rejection
with body text surfaces that text; an unreachable endpoint error is
wrapped with dial context; and both results classify correctly. -/
theorem dial_failure_classified_witness :
    (Err.badHandshake = Err.badHandshake → true = true →
      String.data " no access\n" ≠ [] →
      dialG (some Err.badHandshake) true " no access\n" =
        Except.error (Err.dialText
          (String.mk (trimSpaceL (String.data " no access\n")))) ∧
      mentions (errText (Err.dialText
          (String.mk (trimSpaceL (String.data " no access\n")))))
        (trimSpaceL (String.data " no access\n"))) ∧
    (Err.other "connection refused" ≠ Err.badHandshake →
      dialG (some (Err.other "connection refused")) true " no access\n" =
        Except.error (Err.dialWrap (Err.other "connection refused")) ∧
      mentions (errText (Err.dialWrap (Err.other "connection refused")))
        (errText (Err.other "connection refused"))) := by
  refine ⟨?_, ?_⟩
  · exact (dial_failure_classified Err.badHandshake true " no access\n").1
  · exact (dial_failure_classified (Err.other "connection refused") true
      " no access\n").2.1

end Wschannel
